import Mathlib

/-!
Shallow embedding of the ChatCloud gRPC backend (`backend/main.go`, package
`server`). The external Redis store is modelled as explicit in-memory state:
sets become duplicate-free lists, Redis hashes and lists become association
lists, and Go buffered channels become an explicit heap of `Chan` records
addressed by index. Each gRPC handler becomes a function from `ServerState`
to `ServerState × Except Err <response>`; error returns happen before any
state mutation exactly where the Go code returns early.
-/

namespace ChatCloud

deriving instance DecidableEq for Except

/-- gRPC status codes used (or deliberately not used) by the handlers. -/
inductive Err where
  | invalidArgument
  | permissionDenied
  | internal
  | notFound
deriving DecidableEq

/-- Wire message shape (`proto.Message`): id, user_id, room_id, content,
timestamp in milliseconds since epoch. -/
structure Message where
  id : String
  userId : String
  roomId : String
  content : String
  timestamp : Int
deriving DecidableEq

/-- The per-message Redis hash written by `SendMessage` via `HSet` on key
`message:<id>`: user_id, room_id, content, and the timestamp formatted as
RFC3339, which keeps only whole seconds (`tsSec`). -/
structure StoredMsg where
  userId : String
  roomId : String
  content : String
  tsSec : Int
deriving DecidableEq

/-- A Go buffered channel of `*proto.Message`. `buffer` is the FIFO queue of
pending elements, `cap` the buffer capacity (the source allocates
`make(chan *proto.Message, 200)`). `closeAttempts` counts every `close(ch)`
call executed on the channel (a second one panics in Go); `effectiveCloses`
counts the ones that actually transitioned the channel from open to closed.
`drops` counts messages dropped by a non-blocking send on a full channel,
and `sendPanics` counts sends attempted on an already-closed channel. -/
structure Chan where
  buffer : List Message := []
  cap : Nat := 200
  closed : Bool := false
  closeAttempts : Nat := 0
  effectiveCloses : Nat := 0
  drops : Nat := 0
  sendPanics : Nat := 0
deriving DecidableEq

/-- A freshly allocated channel, as in `make(chan *proto.Message, 200)`. -/
def newChan : Chan := {}

/-- Go `close(ch)`: records the attempt; only an open channel actually
transitions to closed (closing a closed channel panics, leaving it closed). -/
def closeChan (c : Chan) : Chan :=
  if c.closed then
    { c with closeAttempts := c.closeAttempts + 1 }
  else
    { c with closed := true, closeAttempts := c.closeAttempts + 1,
             effectiveCloses := c.effectiveCloses + 1 }

/-- The guarded close of a pre-existing channel in `StreamMessages`
(main.go lines 278-304): a `select` first tries a receive — on a closed
channel the receive returns `ok = false` immediately and no close happens;
on an open channel with a buffered element the element is received
(discarded) and the channel is closed; otherwise the `default` branch closes
the channel directly. -/
def safeClose (c : Chan) : Chan :=
  if c.closed then c
  else
    match c.buffer with
    | _ :: rest => closeChan { c with buffer := rest }
    | [] => closeChan c

/-- Non-blocking send `select { case ch <- msg: default: }` on a buffered
channel: appends when the buffer has room, otherwise drops the message (the
broadcaster logs and counts it). A send on a closed channel would panic. -/
def sendNB (c : Chan) (m : Message) : Chan :=
  if c.closed then { c with sendPanics := c.sendPanics + 1 }
  else if c.buffer.length < c.cap then { c with buffer := c.buffer ++ [m] }
  else { c with drops := c.drops + 1 }

/-- Lookup in an association list keyed by strings (a Go map or a family of
Redis keys). -/
def lookupKey (k : String) : List (String × α) → Option α
  | [] => none
  | (k', v) :: rest => if k' = k then some v else lookupKey k rest

/-- Insert or overwrite the binding of key `k`. -/
def setKey (k : String) (v : α) : List (String × α) → List (String × α)
  | [] => [(k, v)]
  | (k', v') :: rest => if k' = k then (k, v) :: rest else (k', v') :: setKey k v rest

/-- Remove the binding of key `k` (Go `delete(m, k)`). -/
def delKey (k : String) : List (String × α) → List (String × α)
  | [] => []
  | (k', v') :: rest => if k' = k then delKey k rest else (k', v') :: delKey k rest

/-- Value of a Redis set / list key, empty when the key is absent. -/
def lookupD (k : String) (l : List (String × List α)) : List α :=
  (lookupKey k l).getD []

/-- Redis `SADD key member`: adds the member to the set if not present. -/
def saddKey (store : List (String × List String)) (k member : String) :
    List (String × List String) :=
  setKey k (if member ∈ lookupD k store then lookupD k store
            else lookupD k store ++ [member]) store

/-- Redis `SREM key member`: removes the member when the key exists. -/
def sremKey (store : List (String × List String)) (k member : String) :
    List (String × List String) :=
  match lookupKey k store with
  | none => store
  | some l => setKey k (l.filter (fun x => x ≠ member)) store

/-- Channel heap access by channel id; out-of-range reads yield a fresh
channel (never happens in reachable states). -/
def chanAt (cs : List Chan) (i : Nat) : Chan :=
  (cs[i]?).getD newChan

/-- The per-session state of one `StreamMessages` call: which channel it
registered, its local `closed` flag (main.go line 313), and whether its
deferred `cleanup` already ran. -/
structure Session where
  room : String
  user : String
  chanId : Nat
  closedFlag : Bool
  done : Bool
deriving DecidableEq

/-- The whole observable server state: the Redis keyspace
(`room:<r>:users`, `user:<u>:rooms`, `room:<r>:messages`, `message:<id>`),
the published pub/sub events, the in-process `roomStreams` registry
(room → user → channel id), the channel heap, and the live stream sessions. -/
structure ServerState where
  roomUsers : List (String × List String) := []
  userRooms : List (String × List String) := []
  roomMessages : List (String × List String) := []
  msgStore : List (String × StoredMsg) := []
  published : List (String × String) := []
  roomStreams : List (String × List (String × Nat)) := []
  chans : List Chan := []
  sessions : List Session := []
deriving DecidableEq

/-- The initial state of a fresh server (`NewChatCloudServer`). -/
def ServerState.empty : ServerState := {}

/-- Membership test `SIsMember "room:<r>:users" u`. -/
def isMember (s : ServerState) (roomId userId : String) : Bool :=
  userId ∈ lookupD roomId s.roomUsers

/-- Response of `JoinRoom`. -/
structure JoinRoomResponse where
  success : Bool
  recentMessages : List Message
deriving DecidableEq

/-- Response of `SendMessage`. -/
structure SendMessageResponse where
  success : Bool
  message : Message
deriving DecidableEq

/-- Response of `LeaveRoom`. -/
structure LeaveRoomResponse where
  success : Bool
deriving DecidableEq

/-- Resolution of one history entry in `JoinRoom` / the pub-sub listener:
`HGetAll "message:<id>"` followed by an RFC3339 parse of the timestamp field
and conversion back to milliseconds. A missing record yields an empty hash
whose timestamp fails to parse, so the entry is skipped (`continue`). -/
def resolveMsg (s : ServerState) (msgID : String) : Option Message :=
  match lookupKey msgID s.msgStore with
  | none => none
  | some stored =>
      some { id := msgID, userId := stored.userId, roomId := stored.roomId,
             content := stored.content, timestamp := stored.tsSec * 1000 }

/-- JoinRoom (main.go lines 112-171): validate ids, `SAdd` the user into the
room set and the room into the user's set, `LRange 0 49` the room's message
id list (newest first), resolve each id, and return the resolved messages in
that same order. -/
def joinRoom (s : ServerState) (userId roomId : String) :
    ServerState × Except Err JoinRoomResponse :=
  if userId = "" then (s, .error .invalidArgument)
  else if roomId = "" then (s, .error .invalidArgument)
  else
    let s1 := { s with roomUsers := saddKey s.roomUsers roomId userId }
    let s2 := { s1 with userRooms := saddKey s1.userRooms userId roomId }
    let msgIDs := (lookupD roomId s2.roomMessages).take 50
    let recent := msgIDs.filterMap (resolveMsg s2)
    (s2, .ok { success := true, recentMessages := recent })

/-- broadcastMessage (main.go lines 518-531): under a read lock, iterate the
registered channels of the message's room and perform one non-blocking send
to each. -/
def broadcastMessage (s : ServerState) (m : Message) : ServerState :=
  match lookupKey m.roomId s.roomStreams with
  | none => s
  | some inner =>
      let chans1 := inner.foldl (fun acc e => acc.set e.2 (sendNB (chanAt acc e.2) m)) s.chans
      { s with chans := chans1 }

/-- SendMessage (main.go lines 174-244): validate the three fields, check
membership, build the message with a fresh id and the current time in
milliseconds, `HSet` the record (timestamp stored as RFC3339, whole
seconds), `LPush` the id onto the room list, `LTrim 0 999`, `Publish` the id
on the room's pub/sub channel, and broadcast the message in-process. The
fresh uuid and the current time are passed in as `msgID` and `now`. -/
def sendMessage (s : ServerState) (userId roomId content msgID : String)
    (now : Int) : ServerState × Except Err SendMessageResponse :=
  if userId = "" then (s, .error .invalidArgument)
  else if roomId = "" then (s, .error .invalidArgument)
  else if content = "" then (s, .error .invalidArgument)
  else if !(isMember s roomId userId) then (s, .error .permissionDenied)
  else
    let msg : Message :=
      { id := msgID, userId := userId, roomId := roomId, content := content,
        timestamp := now }
    let stored : StoredMsg :=
      { userId := userId, roomId := roomId, content := content,
        tsSec := now / 1000 }
    let s1 := { s with msgStore := setKey msgID stored s.msgStore }
    let newList := (msgID :: lookupD roomId s1.roomMessages).take 1000
    let s2 := { s1 with roomMessages := setKey roomId newList s1.roomMessages }
    let s3 := { s2 with published := s2.published ++ [(roomId, msgID)] }
    (broadcastMessage s3 msg, .ok { success := true, message := msg })

/-- The registration phase of StreamMessages (main.go lines 247-314):
validate ids, check membership, allocate a fresh 200-buffer channel, close
any pre-existing channel for this (room, user) with the guarded `safeClose`,
store the new channel in the registry, and start a session whose local
`closed` flag is false. Returns the session index. -/
def streamRegister (s : ServerState) (userId roomId : String) :
    ServerState × Except Err Nat :=
  if userId = "" then (s, .error .invalidArgument)
  else if roomId = "" then (s, .error .invalidArgument)
  else if !(isMember s roomId userId) then (s, .error .permissionDenied)
  else
    let inner := (lookupKey roomId s.roomStreams).getD []
    let chans1 :=
      match lookupKey userId inner with
      | some oldCid => s.chans.set oldCid (safeClose (chanAt s.chans oldCid))
      | none => s.chans
    let newCid := chans1.length
    let sid := s.sessions.length
    ({ s with
        chans := chans1 ++ [newChan],
        roomStreams := setKey roomId (setKey userId newCid inner) s.roomStreams,
        sessions := s.sessions ++
          [{ room := roomId, user := userId, chanId := newCid,
             closedFlag := false, done := false }] },
     .ok sid)

/-- The deferred `cleanup` closure of a stream session (main.go lines
317-346): delete the (room, user) registry entry unconditionally, delete the
room's inner map when it became empty, then — guarded by the session-local
`closed` flag — `close(msgChan)` with a `recover` around it. The deferred
closure runs at most once per session (`done`). -/
def sessionCleanup (s : ServerState) (sid : Nat) : ServerState :=
  match s.sessions[sid]? with
  | none => s
  | some sess =>
    if sess.done then s
    else
      let streams1 :=
        match lookupKey sess.room s.roomStreams with
        | none => s.roomStreams
        | some inner =>
            let inner2 := delKey sess.user inner
            if inner2 = [] then delKey sess.room s.roomStreams
            else setKey sess.room inner2 s.roomStreams
      let chans1 :=
        if sess.closedFlag then s.chans
        else s.chans.set sess.chanId (closeChan (chanAt s.chans sess.chanId))
      { s with roomStreams := streams1, chans := chans1,
               sessions := s.sessions.set sid
                 { sess with closedFlag := true, done := true } }

/-- LeaveRoom (main.go lines 477-515): validate ids, `SRem` both membership
directions, and if a channel is registered for this (room, user), close it
(no recover here) and delete the entry, dropping the room's inner map when
it became empty. Always returns success. -/
def leaveRoom (s : ServerState) (userId roomId : String) :
    ServerState × Except Err LeaveRoomResponse :=
  if userId = "" then (s, .error .invalidArgument)
  else if roomId = "" then (s, .error .invalidArgument)
  else
    let s1 := { s with roomUsers := sremKey s.roomUsers roomId userId,
                       userRooms := sremKey s.userRooms userId roomId }
    let s2 :=
      match lookupKey roomId s1.roomStreams with
      | none => s1
      | some inner =>
        match lookupKey userId inner with
        | some cid =>
            let inner2 := delKey userId inner
            { s1 with
                chans := s1.chans.set cid (closeChan (chanAt s1.chans cid)),
                roomStreams :=
                  if inner2 = [] then delKey roomId s1.roomStreams
                  else setKey roomId inner2 s1.roomStreams }
        | none =>
            if inner = [] then { s1 with roomStreams := delKey roomId s1.roomStreams }
            else s1
    (s2, .ok { success := true })

/-- Events observed by the main select loop of a stream session (main.go
lines 448-473): upstream cancellation, an error from the Redis listener
goroutine, a message (or closure) of the session's channel, or a keep-alive
ticker tick carrying the current time. -/
inductive StreamEvent where
  | ctxDone
  | redisErr
  | chanMsg (m : Option Message)
  | tick (now : Int)
deriving DecidableEq

/-- The synthetic keep-alive message (main.go lines 433-439): reserved id
`"keep-alive"`, empty content, current timestamp. -/
def keepAliveMsg (userId roomId : String) (now : Int) : Message :=
  { id := "keep-alive", userId := userId, roomId := roomId, content := "",
    timestamp := now }

/-- Interval of the keep-alive ticker (main.go line 429), in seconds. -/
def keepAliveIntervalSeconds : Nat := 10

/-- The messages written to the client transport by the main select loop,
given the sequence of events it observes: channel messages are forwarded
verbatim, each tick sends a keep-alive with the tick's timestamp, and
cancellation, a Redis listener error, or channel closure ends the stream. -/
def streamLoop (userId roomId : String) : List StreamEvent → List Message
  | [] => []
  | .ctxDone :: _ => []
  | .redisErr :: _ => []
  | .chanMsg none :: _ => []
  | .chanMsg (some m) :: es => m :: streamLoop userId roomId es
  | .tick now :: es => keepAliveMsg userId roomId now :: streamLoop userId roomId es

/-- Everything a stream session sends after a successful registration: one
immediate keep-alive (main.go lines 441-445), then the main loop. `startNow`
is the time at which the initial keep-alive is built. -/
def streamOutputs (userId roomId : String) (startNow : Int)
    (events : List StreamEvent) : List Message :=
  keepAliveMsg userId roomId startNow :: streamLoop userId roomId events

/-- Checks that a list of messages is in chronological order
(non-decreasing timestamps, most recent last). -/
def timestampSorted : List Message → Bool
  | [] => true
  | [_] => true
  | a :: b :: rest => a.timestamp ≤ b.timestamp && timestampSorted (b :: rest)

/-- Registry-level operations a client can drive: a stream registration, the
deferred cleanup of a finished session, or a LeaveRoom call. -/
inductive RegOp where
  | register (userId roomId : String)
  | sessionEnd (sid : Nat)
  | leave (userId roomId : String)
deriving DecidableEq

/-- One registry operation applied to the state (responses discarded). -/
def runOp (s : ServerState) : RegOp → ServerState
  | .register u r => (streamRegister s u r).1
  | .sessionEnd sid => sessionCleanup s sid
  | .leave u r => (leaveRoom s u r).1

/-- A sequence of registry operations applied in order. -/
def runOps (s : ServerState) (ops : List RegOp) : ServerState :=
  ops.foldl runOp s

/-! ### Association-list and channel-heap lemmas -/

theorem lookupKey_setKey_self {α : Type} (k : String) (v : α)
    (l : List (String × α)) : lookupKey k (setKey k v l) = some v := by
  induction l with
  | nil => simp [setKey, lookupKey]
  | cons p rest ih =>
      obtain ⟨k', v'⟩ := p
      by_cases h : k' = k
      · simp [setKey, lookupKey, h]
      · simp [setKey, lookupKey, h, ih]

theorem lookupKey_setKey_ne {α : Type} (k q : String) (v : α)
    (l : List (String × α)) (h : q ≠ k) :
    lookupKey q (setKey k v l) = lookupKey q l := by
  induction l with
  | nil =>
      simp only [setKey, lookupKey]
      rw [if_neg (fun hh : k = q => h hh.symm)]
  | cons p rest ih =>
      obtain ⟨k', v'⟩ := p
      simp only [setKey]
      by_cases hk : k' = k
      · rw [if_pos hk]
        simp only [lookupKey]
        rw [if_neg (fun hh : k = q => h hh.symm),
            if_neg (fun hh : k' = q => h (hh.symm.trans hk))]
      · rw [if_neg hk]
        simp only [lookupKey]
        by_cases hq : k' = q
        · rw [if_pos hq, if_pos hq]
        · rw [if_neg hq, if_neg hq, ih]

theorem setKey_lookup_id {α : Type} (k : String) (v : α)
    (l : List (String × α)) (h : lookupKey k l = some v) : setKey k v l = l := by
  induction l with
  | nil => simp [lookupKey] at h
  | cons p rest ih =>
      obtain ⟨k', v'⟩ := p
      simp only [lookupKey] at h
      simp only [setKey]
      by_cases hk : k' = k
      · rw [if_pos hk] at h
        rw [if_pos hk]
        injection h with hv
        rw [hk, hv]
      · rw [if_neg hk] at h
        rw [if_neg hk, ih h]

theorem lookupKey_delKey_self {α : Type} (k : String) (l : List (String × α)) :
    lookupKey k (delKey k l) = none := by
  induction l with
  | nil => rfl
  | cons p rest ih =>
      obtain ⟨k', v'⟩ := p
      simp only [delKey]
      by_cases hk : k' = k
      · rw [if_pos hk]
        exact ih
      · rw [if_neg hk]
        simp only [lookupKey]
        rw [if_neg hk]
        exact ih

theorem lookupKey_delKey_ne {α : Type} (k q : String) (l : List (String × α))
    (h : q ≠ k) : lookupKey q (delKey k l) = lookupKey q l := by
  induction l with
  | nil => rfl
  | cons p rest ih =>
      obtain ⟨k', v'⟩ := p
      simp only [delKey]
      by_cases hk : k' = k
      · rw [if_pos hk, ih]
        simp only [lookupKey]
        rw [if_neg (fun hh : k' = q => h (hh.symm.trans hk))]
      · rw [if_neg hk]
        simp only [lookupKey]
        by_cases hq : k' = q
        · rw [if_pos hq, if_pos hq]
        · rw [if_neg hq, if_neg hq, ih]

theorem chanAt_set_self (cs : List Chan) (i : Nat) (c : Chan)
    (h : i < cs.length) : chanAt (cs.set i c) i = c := by
  simp [chanAt, List.getElem?_set_eq_of_lt c h]

theorem chanAt_set_ne (cs : List Chan) (i j : Nat) (c : Chan) (h : i ≠ j) :
    chanAt (cs.set i c) j = chanAt cs j := by
  simp [chanAt, List.getElem?_set_ne h]

/-- Effect of the broadcast fold on each channel: every channel id that is a
registry target of the room receives exactly one non-blocking send of the
message, computed from that channel's own prior state; every other channel
is untouched. -/
theorem broadcast_fold_at (m : Message) (inner : List (String × Nat)) :
    ∀ (cs : List Chan), (inner.map Prod.snd).Nodup →
      (∀ e ∈ inner, e.2 < cs.length) → ∀ j,
      chanAt (inner.foldl (fun acc e => acc.set e.2 (sendNB (chanAt acc e.2) m)) cs) j
        = if j ∈ inner.map Prod.snd then sendNB (chanAt cs j) m else chanAt cs j := by
  induction inner with
  | nil => intro cs _ _ j; simp
  | cons e rest ih =>
      intro cs hnd hrange j
      obtain ⟨u, c⟩ := e
      have hc : c < cs.length := hrange (u, c) (List.mem_cons_self _ _)
      have hnd1 : (c :: rest.map Prod.snd).Nodup := by
        simpa only [List.map_cons] using hnd
      have hcnot : c ∉ rest.map Prod.snd := (List.nodup_cons.mp hnd1).1
      have hnd' : (rest.map Prod.snd).Nodup := (List.nodup_cons.mp hnd1).2
      have hrange' : ∀ e ∈ rest,
          e.2 < (cs.set c (sendNB (chanAt cs c) m)).length := by
        intro e he
        simpa using hrange e (List.mem_cons_of_mem _ he)
      have hrec := ih (cs.set c (sendNB (chanAt cs c) m)) hnd' hrange' j
      simp only [List.foldl_cons]
      rw [hrec]
      by_cases hj : j ∈ rest.map Prod.snd
      · have hjc : c ≠ j := fun hh => hcnot (hh ▸ hj)
        simp [hj, chanAt_set_ne cs c j _ hjc]
      · by_cases hjc : j = c
        · subst hjc
          simp [hj, chanAt_set_self cs j _ hc]
        · simp [hj, hjc, chanAt_set_ne cs c j _ (fun hh => hjc hh.symm)]

/-- Each tick event of the main loop emits one keep-alive message. -/
theorem streamLoop_ticks (u r : String) (ts : List Int) :
    streamLoop u r (ts.map StreamEvent.tick) = ts.map (keepAliveMsg u r) := by
  induction ts with
  | nil => rfl
  | cons t rest ih => simp [streamLoop, ih]

theorem setKey_setKey {α : Type} (k : String) (v v' : α)
    (l : List (String × α)) : setKey k v (setKey k v' l) = setKey k v l := by
  induction l with
  | nil => simp [setKey]
  | cons p rest ih =>
      obtain ⟨k', v''⟩ := p
      simp only [setKey]
      by_cases hk : k' = k
      · simp [setKey, hk]
      · rw [if_neg hk]
        simp only [setKey]
        rw [if_neg hk, if_neg hk, ih]

/-- Adding a member a second time leaves the store unchanged
(`SADD` on an already-present member). -/
theorem saddKey_idem (store : List (String × List String)) (k a : String) :
    saddKey (saddKey store k a) k a = saddKey store k a := by
  unfold saddKey
  have hcur : lookupD k
      (setKey k (if a ∈ lookupD k store then lookupD k store
                 else lookupD k store ++ [a]) store)
      = (if a ∈ lookupD k store then lookupD k store
         else lookupD k store ++ [a]) := by
    unfold lookupD
    rw [lookupKey_setKey_self]
    rfl
  rw [hcur]
  have hmem : a ∈ (if a ∈ lookupD k store then lookupD k store
                   else lookupD k store ++ [a]) := by
    by_cases h : a ∈ lookupD k store
    · simp [h]
    · simp [h]
  rw [if_pos hmem, setKey_setKey]

/-- Broadcasting touches only the channel heap: the message history field is
unchanged. -/
theorem broadcastMessage_roomMessages (s : ServerState) (m : Message) :
    (broadcastMessage s m).roomMessages = s.roomMessages := by
  unfold broadcastMessage
  cases lookupKey m.roomId s.roomStreams <;> rfl

/-- Broadcasting leaves the registry unchanged. -/
theorem broadcastMessage_roomStreams (s : ServerState) (m : Message) :
    (broadcastMessage s m).roomStreams = s.roomStreams := by
  unfold broadcastMessage
  cases lookupKey m.roomId s.roomStreams <;> rfl

/-- After a LeaveRoom call, the registry holds no entry for that
(room, user) pair. -/
theorem leaveRoom_entry_gone (s : ServerState) (u r : String)
    (hu : u ≠ "") (hr : r ≠ "") :
    ∀ inner, lookupKey r (leaveRoom s u r).1.roomStreams = some inner →
      lookupKey u inner = none := by
  intro inner hinner
  simp only [leaveRoom, if_neg hu, if_neg hr] at hinner
  cases hst : lookupKey r s.roomStreams with
  | none =>
      rw [hst] at hinner
      dsimp only at hinner
      rw [hst] at hinner
      cases hinner
  | some inner0 =>
      rw [hst] at hinner
      dsimp only at hinner
      cases hcid : lookupKey u inner0 with
      | some cid =>
          rw [hcid] at hinner
          dsimp only at hinner
          by_cases hemp : delKey u inner0 = []
          · rw [if_pos hemp, lookupKey_delKey_self] at hinner
            cases hinner
          · rw [if_neg hemp, lookupKey_setKey_self] at hinner
            cases hinner
            exact lookupKey_delKey_self u inner0
      | none =>
          rw [hcid] at hinner
          dsimp only at hinner
          by_cases hemp : inner0 = []
          · rw [if_pos hemp] at hinner
            dsimp only at hinner
            rw [lookupKey_delKey_self] at hinner
            cases hinner
          · rw [if_neg hemp] at hinner
            dsimp only at hinner
            rw [hst] at hinner
            cases hinner
            exact hcid

/-- A LeaveRoom call that finds no registry entry leaves the channel heap
untouched (no close is attempted). -/
theorem leaveRoom_noEntry_chans (s : ServerState) (u r : String)
    (hu : u ≠ "") (hr : r ≠ "")
    (h : ∀ inner, lookupKey r s.roomStreams = some inner →
      lookupKey u inner = none) :
    (leaveRoom s u r).1.chans = s.chans := by
  simp only [leaveRoom, if_neg hu, if_neg hr]
  cases hst : lookupKey r s.roomStreams with
  | none => rfl
  | some inner0 =>
      have hnone := h inner0 hst
      dsimp only
      rw [hnone]
      dsimp only
      by_cases hemp : inner0 = []
      · rw [if_pos hemp]
      · rw [if_neg hemp]

/-- When every history id resolves, the resolved list keeps exactly the ids
in their stored order. -/
theorem filterMap_resolve_ids (s : ServerState) (ids : List String)
    (h : ∀ idm ∈ ids, (lookupKey idm s.msgStore).isSome) :
    (ids.filterMap (resolveMsg s)).map Message.id = ids := by
  induction ids with
  | nil => rfl
  | cons idm rest ih =>
      have h1 := h idm (List.mem_cons_self _ _)
      obtain ⟨stored, hst⟩ := Option.isSome_iff_exists.mp h1
      have ihr := ih (fun x hx => h x (List.mem_cons_of_mem _ hx))
      simp [List.filterMap_cons, resolveMsg, hst, ihr]

/-- Characterization of a successful SendMessage: the happy path updates the
message store, prepends the id to the (trimmed) room history, records the
publish, broadcasts the very message object that is returned, and answers
with that message. -/
theorem sendMessage_happy (s : ServerState) (u r c idm : String) (t : Int)
    (hu : u ≠ "") (hr : r ≠ "") (hc : c ≠ "") (hm : isMember s r u = true) :
    sendMessage s u r c idm t
      = (broadcastMessage
          { s with
            msgStore := setKey idm
              { userId := u, roomId := r, content := c, tsSec := t / 1000 }
              s.msgStore,
            roomMessages := setKey r
              ((idm :: lookupD r s.roomMessages).take 1000) s.roomMessages,
            published := s.published ++ [(r, idm)] }
          { id := idm, userId := u, roomId := r, content := c, timestamp := t },
         .ok { success := true,
               message := { id := idm, userId := u, roomId := r,
                            content := c, timestamp := t } }) := by
  simp [sendMessage, hu, hr, hc, hm]

/-! ### Claim theorems -/

/-- Failing trace for claim C1: user "u" (a member of room "r") opens a
stream (session 0), reconnects so that a second StreamMessages call
registers a replacement channel (session 1) — which closes session 0's
channel — and then session 0's deferred cleanup runs. The cleanup closes
session 0's channel a second time (its local `closed` flag was never set by
the replacement), relying on `recover` to survive the panic, and it also
deletes the (room, user) registry entry that by now belongs to session 1's
still-open channel. -/
def doubleCloseTrace : ServerState :=
  runOps (joinRoom ServerState.empty "u" "r").1
    [RegOp.register "u" "r", RegOp.register "u" "r", RegOp.sessionEnd 0]

/-- Claim C1 (code_bug evidence): in the trace where a stream for (room
"r", user "u") is registered twice and then the first session's cleanup
runs, the first channel receives two `close` calls (the second one panics
in Go and is suppressed by `recover`), only one of which takes effect — so
the code does close a channel twice, contrary to the claim — and in
addition the replacement session's registry entry has been deleted while
its channel (id 1) is still open. -/
theorem C1_replaced_stream_double_close :
    (chanAt doubleCloseTrace.chans 0).closeAttempts = 2
    ∧ (chanAt doubleCloseTrace.chans 0).effectiveCloses = 1
    ∧ (chanAt doubleCloseTrace.chans 1).closed = false
    ∧ lookupKey "r" doubleCloseTrace.roomStreams = none := by
  decide

/-- Claim C4: for every accepted StreamMessages call the very first message
sent on the stream is the synthetic keep-alive (reserved id "keep-alive",
empty content), regardless of subsequent events; in the absence of other
traffic every keep-alive tick emits a further keep-alive with the same
reserved id and empty content until the stream ends; and the ticker
interval is 10 seconds. -/
theorem C4_keepalive_first_and_periodic (u r : String) (t : Int)
    (ts : List Int) :
    (∀ es : List StreamEvent,
        (streamOutputs u r t es).head? = some (keepAliveMsg u r t))
    ∧ streamOutputs u r t (ts.map StreamEvent.tick)
        = keepAliveMsg u r t :: ts.map (keepAliveMsg u r)
    ∧ (∀ m ∈ streamOutputs u r t (ts.map StreamEvent.tick),
        m.id = "keep-alive" ∧ m.content = "")
    ∧ keepAliveIntervalSeconds = 10 := by
  refine ⟨fun es => rfl, ?_, ?_, rfl⟩
  · unfold streamOutputs
    rw [streamLoop_ticks]
  · intro m hm
    unfold streamOutputs at hm
    rw [streamLoop_ticks] at hm
    rcases List.mem_cons.mp hm with rfl | hm2
    · exact ⟨rfl, rfl⟩
    · obtain ⟨t', _, rfl⟩ := List.mem_map.mp hm2
      exact ⟨rfl, rfl⟩

/-- Claim C5: SendMessage rejects an empty user_id, room_id or content with
InvalidArgument and leaves the state untouched; and for a sender who is not
a member of the room, both SendMessage and StreamMessages reject with
PermissionDenied (not NotFound) before any side effect — the state is
returned unchanged, so nothing is stored, published or registered. -/
theorem C5_validation_and_permission (s : ServerState) (u r c idm : String)
    (t : Int) :
    ((u = "" ∨ r = "" ∨ c = "") →
      sendMessage s u r c idm t = (s, .error .invalidArgument))
    ∧ (u ≠ "" → r ≠ "" → c ≠ "" → isMember s r u = false →
      sendMessage s u r c idm t = (s, .error .permissionDenied)
      ∧ streamRegister s u r = (s, .error .permissionDenied)) := by
  constructor
  · intro h
    by_cases hu : u = ""
    · simp [sendMessage, hu]
    · by_cases hr : r = ""
      · simp [sendMessage, hu, hr]
      · have hc : c = "" := by tauto
        simp [sendMessage, hu, hr, hc]
  · intro hu hr hc hm
    constructor
    · simp [sendMessage, hu, hr, hc, hm]
    · simp [streamRegister, hu, hr, hm]

/-- Witness for C5 at concrete inputs: an empty user_id is rejected with
InvalidArgument, and a non-member sender is rejected with PermissionDenied
by both SendMessage and StreamMessages, each time with the state returned
unchanged. -/
theorem C5_witness :
    sendMessage ServerState.empty "" "r" "hi" "m" 1
      = (ServerState.empty, .error .invalidArgument)
    ∧ sendMessage ServerState.empty "alice" "r" "hi" "m" 1
      = (ServerState.empty, .error .permissionDenied)
    ∧ streamRegister ServerState.empty "alice" "r"
      = (ServerState.empty, .error .permissionDenied) :=
  ⟨(C5_validation_and_permission ServerState.empty "" "r" "hi" "m" 1).1
      (Or.inl rfl),
   ((C5_validation_and_permission ServerState.empty "alice" "r" "hi" "m" 1).2
      (by decide) (by decide) (by decide) (by decide)).1,
   ((C5_validation_and_permission ServerState.empty "alice" "r" "hi" "m" 1).2
      (by decide) (by decide) (by decide) (by decide)).2⟩

/-- Claim C9: StreamMessages and LeaveRoom both reject an empty user_id or
room_id with InvalidArgument, with the state returned unchanged — so before
any store access, membership check or registry mutation. -/
theorem C9_empty_id_validation (s : ServerState) (u r : String)
    (h : u = "" ∨ r = "") :
    streamRegister s u r = (s, .error .invalidArgument)
    ∧ leaveRoom s u r = (s, .error .invalidArgument) := by
  by_cases hu : u = ""
  · constructor <;> simp [streamRegister, leaveRoom, hu]
  · have hr : r = "" := by tauto
    constructor <;> simp [streamRegister, leaveRoom, hu, hr]

/-- Witness for C9 at a concrete input: an empty user_id is rejected by
both StreamMessages and LeaveRoom with the state unchanged. -/
theorem C9_witness :
    streamRegister ServerState.empty "" "r"
      = (ServerState.empty, .error .invalidArgument)
    ∧ leaveRoom ServerState.empty "" "r"
      = (ServerState.empty, .error .invalidArgument) :=
  C9_empty_id_validation ServerState.empty "" "r" (Or.inl rfl)

/-- Claim C7: after every successful SendMessage the room's message-id list
is exactly the new id prepended to the old list, trimmed to 1000 entries
(newest first), hence never longer than 1000; and when the list already
held 1000 entries the oldest (last) id is evicted. -/
theorem C7_history_bounded (s : ServerState) (u r c idm : String) (t : Int)
    (hu : u ≠ "") (hr : r ≠ "") (hc : c ≠ "") (hm : isMember s r u = true) :
    (sendMessage s u r c idm t).2
      = .ok { success := true,
              message := { id := idm, userId := u, roomId := r,
                           content := c, timestamp := t } }
    ∧ lookupD r (sendMessage s u r c idm t).1.roomMessages
      = (idm :: lookupD r s.roomMessages).take 1000
    ∧ (lookupD r (sendMessage s u r c idm t).1.roomMessages).length ≤ 1000
    ∧ ((lookupD r s.roomMessages).length = 1000 →
        lookupD r (sendMessage s u r c idm t).1.roomMessages
          = idm :: (lookupD r s.roomMessages).dropLast) := by
  have h := sendMessage_happy s u r c idm t hu hr hc hm
  have hkey : lookupD r (sendMessage s u r c idm t).1.roomMessages
      = (idm :: lookupD r s.roomMessages).take 1000 := by
    rw [h]
    dsimp only
    rw [broadcastMessage_roomMessages]
    dsimp only
    unfold lookupD
    rw [lookupKey_setKey_self]
    rfl
  refine ⟨by rw [h], hkey, ?_, ?_⟩
  · rw [hkey]
    exact List.length_take_le _ _
  · intro h1000
    rw [hkey]
    have e1 : (1000 : Nat) = 999 + 1 := rfl
    rw [e1, List.take_succ_cons]
    congr 1
    rw [List.dropLast_eq_take, h1000]

/-- Witness for C7: in a room whose only member is "u", a successful send
returns the message and leaves the history equal to the trimmed prepended
list, of length at most 1000. -/
theorem C7_witness :
    isMember (joinRoom ServerState.empty "u" "r").1 "r" "u" = true
    ∧ (sendMessage (joinRoom ServerState.empty "u" "r").1 "u" "r" "hello" "m1" 1500).2
      = .ok { success := true,
              message := { id := "m1", userId := "u", roomId := "r",
                           content := "hello", timestamp := 1500 } }
    ∧ lookupD "r" (sendMessage (joinRoom ServerState.empty "u" "r").1
        "u" "r" "hello" "m1" 1500).1.roomMessages
      = (("m1" : String) ::
          lookupD "r" (joinRoom ServerState.empty "u" "r").1.roomMessages).take 1000 :=
  ⟨by decide,
   (C7_history_bounded (joinRoom ServerState.empty "u" "r").1 "u" "r" "hello"
      "m1" 1500 (by decide) (by decide) (by decide) (by decide)).1,
   (C7_history_bounded (joinRoom ServerState.empty "u" "r").1 "u" "r" "hello"
      "m1" 1500 (by decide) (by decide) (by decide) (by decide)).2.1⟩

/-- Claim C8: LeaveRoom called twice in a row for the same (user, room)
succeeds both times: each call returns success, and the second call touches
no channel at all (so it cannot close anything twice or panic), including
when no channel was ever registered for that pair. -/
theorem C8_leave_idempotent (s : ServerState) (u r : String)
    (hu : u ≠ "") (hr : r ≠ "") :
    (leaveRoom s u r).2 = .ok { success := true }
    ∧ (leaveRoom (leaveRoom s u r).1 u r).2 = .ok { success := true }
    ∧ (leaveRoom (leaveRoom s u r).1 u r).1.chans = (leaveRoom s u r).1.chans := by
  refine ⟨?_, ?_, ?_⟩
  · simp [leaveRoom, hu, hr]
  · simp [leaveRoom, hu, hr]
  · exact leaveRoom_noEntry_chans _ u r hu hr (leaveRoom_entry_gone s u r hu hr)

/-- Witness for C8 on a state that does hold a registered channel for the
pair: leaving twice succeeds both times and the second call leaves the
channel heap untouched. -/
theorem C8_witness :
    (leaveRoom (streamRegister (joinRoom ServerState.empty "bob" "weather").1
        "bob" "weather").1 "bob" "weather").2 = .ok { success := true }
    ∧ (leaveRoom (leaveRoom (streamRegister
        (joinRoom ServerState.empty "bob" "weather").1 "bob" "weather").1
        "bob" "weather").1 "bob" "weather").2 = .ok { success := true }
    ∧ (leaveRoom (leaveRoom (streamRegister
        (joinRoom ServerState.empty "bob" "weather").1 "bob" "weather").1
        "bob" "weather").1 "bob" "weather").1.chans
      = (leaveRoom (streamRegister (joinRoom ServerState.empty "bob" "weather").1
          "bob" "weather").1 "bob" "weather").1.chans :=
  C8_leave_idempotent
    (streamRegister (joinRoom ServerState.empty "bob" "weather").1 "bob" "weather").1
    "bob" "weather" (by decide) (by decide)

/-- Claim C10: JoinRoom never returns PermissionDenied — any user with
non-empty ids may join any room — and a repeated JoinRoom for the same
(user, room) succeeds again and leaves the whole state (in particular the
room's membership set and the user's room set) unchanged from the first
call. -/
theorem C10_join_no_auth (s : ServerState) (u r : String)
    (hu : u ≠ "") (hr : r ≠ "") :
    ((joinRoom s u r).2 ≠ .error .permissionDenied)
    ∧ (∃ resp, (joinRoom s u r).2 = .ok resp ∧ resp.success = true)
    ∧ ((joinRoom (joinRoom s u r).1 u r).1 = (joinRoom s u r).1)
    ∧ (∃ resp, (joinRoom (joinRoom s u r).1 u r).2 = .ok resp
        ∧ resp.success = true) := by
  refine ⟨?_, ?_, ?_, ?_⟩
  · simp [joinRoom, hu, hr]
  · simp only [joinRoom, if_neg hu, if_neg hr]
    exact ⟨_, rfl, rfl⟩
  · simp only [joinRoom, if_neg hu, if_neg hr]
    rw [saddKey_idem, saddKey_idem]
  · simp only [joinRoom, if_neg hu, if_neg hr]
    exact ⟨_, rfl, rfl⟩

/-- Witness for C10: joining an arbitrary room from the empty state
succeeds without any membership check, and joining again changes nothing. -/
theorem C10_witness :
    ((joinRoom ServerState.empty "u" "r").2 ≠ .error .permissionDenied)
    ∧ ((joinRoom (joinRoom ServerState.empty "u" "r").1 "u" "r").1
      = (joinRoom ServerState.empty "u" "r").1) :=
  ⟨(C10_join_no_auth ServerState.empty "u" "r" (by decide) (by decide)).1,
   (C10_join_no_auth ServerState.empty "u" "r" (by decide) (by decide)).2.2.1⟩

/-- Server state after "alice" joins room "weather" and sends "hello"
(id m1, t = 1000 ms) and then "world" (id m2, t = 2000 ms). -/
def twoMessageState : ServerState :=
  (sendMessage
    (sendMessage (joinRoom ServerState.empty "alice" "weather").1
      "alice" "weather" "hello" "m1" 1000).1
    "alice" "weather" "world" "m2" 2000).1

/-- Counterexample to claim C6 as stated: after two messages have been sent
to room "weather", JoinRoom returns them most-recent-FIRST — the first
returned message is the later one (timestamp 2000 before 1000), so the
returned history is not in chronological (most-recent-last) order. -/
theorem C6_counterexample_not_chronological :
    (joinRoom twoMessageState "bob" "weather").2
      = .ok { success := true,
              recentMessages :=
                [{ id := "m2", userId := "alice", roomId := "weather",
                   content := "world", timestamp := 2000 },
                 { id := "m1", userId := "alice", roomId := "weather",
                   content := "hello", timestamp := 1000 }] }
    ∧ timestampSorted
        [{ id := "m2", userId := "alice", roomId := "weather",
           content := "world", timestamp := 2000 },
         { id := "m1", userId := "alice", roomId := "weather",
           content := "hello", timestamp := 1000 }] = false := by
  decide

/-- Claim C6 (amended): JoinRoom reads up to the last 50 entries of the
room's history list and, whenever every such id resolves, returns the
resolved messages in exactly the stored order — which SendMessage maintains
newest-first — i.e. most-recent-FIRST (reverse chronological), not
chronological. -/
theorem C6_amended_stored_order (s : ServerState) (u r : String)
    (hu : u ≠ "") (hr : r ≠ "")
    (hres : ∀ idm ∈ (lookupD r s.roomMessages).take 50,
        (lookupKey idm s.msgStore).isSome) :
    ∃ resp, (joinRoom s u r).2 = .ok resp ∧ resp.success = true
      ∧ resp.recentMessages.map Message.id
        = (lookupD r s.roomMessages).take 50 := by
  simp only [joinRoom, if_neg hu, if_neg hr]
  refine ⟨_, rfl, rfl, ?_⟩
  exact filterMap_resolve_ids _ _ hres

/-- Witness for the amended C6: with two resolvable messages stored, the
returned ids are exactly the stored (newest-first) prefix of the history
list. -/
theorem C6_amended_witness :
    (∀ idm ∈ (lookupD "weather" twoMessageState.roomMessages).take 50,
        (lookupKey idm twoMessageState.msgStore).isSome)
    ∧ (∃ resp, (joinRoom twoMessageState "bob" "weather").2 = .ok resp
        ∧ resp.success = true
        ∧ resp.recentMessages.map Message.id
          = (lookupD "weather" twoMessageState.roomMessages).take 50) :=
  ⟨by decide,
   C6_amended_stored_order twoMessageState "bob" "weather"
     (by decide) (by decide) (by decide)⟩

/-- Claim C2: for a member streamer with a registered, open, non-full
channel for room r, a successful SendMessage enqueues on that channel
exactly the message object it returns — same id, user_id, room_id, content
and timestamp — and the stream's main loop forwards a channel message to
the client verbatim. -/
theorem C2_roundtrip_delivery (s : ServerState) (u v r c idm : String)
    (t : Int) (inner : List (String × Nat)) (cid : Nat)
    (hu : u ≠ "") (hr : r ≠ "") (hc : c ≠ "") (hm : isMember s r u = true)
    (hl : lookupKey r s.roomStreams = some inner)
    (hin : (v, cid) ∈ inner)
    (hnd : (inner.map Prod.snd).Nodup)
    (hrange : ∀ e ∈ inner, e.2 < s.chans.length)
    (hopen : (chanAt s.chans cid).closed = false)
    (hspace : (chanAt s.chans cid).buffer.length < (chanAt s.chans cid).cap) :
    (sendMessage s u r c idm t).2
      = .ok { success := true,
              message := { id := idm, userId := u, roomId := r,
                           content := c, timestamp := t } }
    ∧ (chanAt (sendMessage s u r c idm t).1.chans cid).buffer
      = (chanAt s.chans cid).buffer
        ++ [{ id := idm, userId := u, roomId := r, content := c, timestamp := t }]
    ∧ (∀ es, streamLoop v r
        (StreamEvent.chanMsg (some { id := idm, userId := u, roomId := r, content := c, timestamp := t }) :: es)
        = { id := idm, userId := u, roomId := r, content := c, timestamp := t }
          :: streamLoop v r es) := by
  have h := sendMessage_happy s u r c idm t hu hr hc hm
  refine ⟨by rw [h], ?_, fun es => rfl⟩
  rw [h]
  dsimp only
  unfold broadcastMessage
  dsimp only
  rw [hl]
  dsimp only
  rw [broadcast_fold_at _ inner s.chans hnd hrange cid]
  rw [if_pos (List.mem_map.mpr ⟨(v, cid), hin, rfl⟩)]
  simp only [sendNB, hopen, Bool.false_eq_true, if_false, if_pos hspace]

/-- State for the C2 witness: "alice" and "bob" are members of room
"weather", and "bob" has an open stream with channel id 0. -/
def c2WitnessState : ServerState :=
  (streamRegister
    (joinRoom (joinRoom ServerState.empty "alice" "weather").1 "bob" "weather").1
    "bob" "weather").1

/-- Witness for C2: with "bob" streaming room "weather", a message sent by
member "alice" is returned by SendMessage and enqueued verbatim on "bob"'s
channel. -/
theorem C2_witness :
    isMember c2WitnessState "weather" "alice" = true
    ∧ lookupKey "weather" c2WitnessState.roomStreams = some [("bob", 0)]
    ∧ (sendMessage c2WitnessState "alice" "weather" "hi" "m9" 1234).2
      = .ok { success := true,
              message := { id := "m9", userId := "alice", roomId := "weather",
                           content := "hi", timestamp := 1234 } }
    ∧ (chanAt (sendMessage c2WitnessState "alice" "weather" "hi" "m9" 1234).1.chans 0).buffer
      = (chanAt c2WitnessState.chans 0).buffer
        ++ [{ id := "m9", userId := "alice", roomId := "weather",
              content := "hi", timestamp := 1234 }] :=
  ⟨by decide, by decide,
   (C2_roundtrip_delivery c2WitnessState "alice" "bob" "weather" "hi" "m9" 1234
      [("bob", 0)] 0 (by decide) (by decide) (by decide) (by decide) (by decide)
      (by decide) (by decide) (by decide) (by decide) (by decide)).1,
   (C2_roundtrip_delivery c2WitnessState "alice" "bob" "weather" "hi" "m9" 1234
      [("bob", 0)] 0 (by decide) (by decide) (by decide) (by decide) (by decide)
      (by decide) (by decide) (by decide) (by decide) (by decide)).2.1⟩

/-- Claim C3: one broadcast performs exactly one non-blocking delivery
attempt per registered subscriber of the room, each outcome depending only
on that subscriber's own channel (so a full channel for one subscriber
cannot delay or fail the others); non-subscribing channels are untouched; a
full open channel drops the message and counts the drop; a non-full open
channel receives the message. -/
theorem C3_broadcast_nonblocking (s : ServerState) (m : Message)
    (inner : List (String × Nat))
    (hl : lookupKey m.roomId s.roomStreams = some inner)
    (hnd : (inner.map Prod.snd).Nodup)
    (hrange : ∀ e ∈ inner, e.2 < s.chans.length) :
    (∀ e ∈ inner, chanAt (broadcastMessage s m).chans e.2
        = sendNB (chanAt s.chans e.2) m)
    ∧ (∀ j, j ∉ inner.map Prod.snd →
        chanAt (broadcastMessage s m).chans j = chanAt s.chans j)
    ∧ (∀ ch : Chan, ch.closed = false → ¬ ch.buffer.length < ch.cap →
        sendNB ch m = { ch with drops := ch.drops + 1 })
    ∧ (∀ ch : Chan, ch.closed = false → ch.buffer.length < ch.cap →
        sendNB ch m = { ch with buffer := ch.buffer ++ [m] }) := by
  have hb : (broadcastMessage s m).chans
      = inner.foldl (fun acc e => acc.set e.2 (sendNB (chanAt acc e.2) m)) s.chans := by
    unfold broadcastMessage
    rw [hl]
  refine ⟨?_, ?_, ?_, ?_⟩
  · intro e he
    rw [hb, broadcast_fold_at m inner s.chans hnd hrange e.2,
        if_pos (List.mem_map.mpr ⟨e, he, rfl⟩)]
  · intro j hj
    rw [hb, broadcast_fold_at m inner s.chans hnd hrange j, if_neg hj]
  · intro ch h1 h2
    simp only [sendNB, h1, Bool.false_eq_true, if_false, if_neg h2]
  · intro ch h1 h2
    simp only [sendNB, h1, Bool.false_eq_true, if_false, if_pos h2]

/-- Message broadcast in the C3 witness. -/
def c3WitnessMsg : Message :=
  { id := "mx", userId := "alice", roomId := "r", content := "hey",
    timestamp := 7 }

/-- State for the C3 witness: room "r" has two subscribers — "a" with an
empty channel (id 0) and "b" with a full one-slot channel (id 1). -/
def c3WitnessState : ServerState :=
  { roomStreams := [("r", [("a", 0), ("b", 1)])],
    chans := [newChan, { buffer := [c3WitnessMsg], cap := 1 }] }

/-- Witness for C3: broadcasting to a room with one empty-channel
subscriber and one full-channel subscriber updates each channel by exactly
one non-blocking send and leaves unrelated channel ids untouched. -/
theorem C3_witness :
    lookupKey c3WitnessMsg.roomId c3WitnessState.roomStreams
      = some [("a", 0), ("b", 1)]
    ∧ chanAt (broadcastMessage c3WitnessState c3WitnessMsg).chans 0
      = sendNB (chanAt c3WitnessState.chans 0) c3WitnessMsg
    ∧ chanAt (broadcastMessage c3WitnessState c3WitnessMsg).chans 1
      = sendNB (chanAt c3WitnessState.chans 1) c3WitnessMsg
    ∧ chanAt (broadcastMessage c3WitnessState c3WitnessMsg).chans 5
      = chanAt c3WitnessState.chans 5 :=
  ⟨by decide,
   (C3_broadcast_nonblocking c3WitnessState c3WitnessMsg [("a", 0), ("b", 1)]
      (by decide) (by decide) (by decide)).1 ("a", 0) (by decide),
   (C3_broadcast_nonblocking c3WitnessState c3WitnessMsg [("a", 0), ("b", 1)]
      (by decide) (by decide) (by decide)).1 ("b", 1) (by decide),
   (C3_broadcast_nonblocking c3WitnessState c3WitnessMsg [("a", 0), ("b", 1)]
      (by decide) (by decide) (by decide)).2.1 5 (by decide)⟩

end ChatCloud
